import Mathlib

/-!
Verification development for the Code-Editor-Live repository: a browser-resident
HTML/CSS/JS playground (script.js + utils.js).  The definitions below are a
shallow embedding of the relevant parts of the source: the document assembler
`buildwebSrcdoc`, the open-preview click handler, the debounced autorun
scheduler, the tab-strip pane manager, the font-size controls, and the
JSON-backed persistence layer (`projectJSON` / `loadProject` /
`setDefaultContent` / `initProject` and the file-import handler).

Strings are embedded character-for-character from the template literals in
script.js (braces and apostrophes are written with \x escapes).  JSON values
are modelled by the inductive `Jv`; the host's `JSON.parse` boundary is
modelled by `Except Unit Jv` (error = the parse threw), and a stored key-value
entry by `Option (Except Unit Jv)` (none = key absent).
-/

/-- Does `needle` occur (contiguously) in `hay`?  Char-list level. -/
def occursIn (needle : List Char) : List Char → Bool
  | [] => needle == []
  | c :: rest => needle.isPrefixOf (c :: rest) || occursIn needle rest

/-- String-level substring test: does `hay` contain `needle`? -/
def containsStr (hay needle : String) : Bool :=
  occursIn needle.data hay.data

/-! ## Document assembler (`buildwebSrcdoc`, script.js lines 327-360)

The template literal is split at its four interpolation holes into five fixed
fragments, copied verbatim from the source (the JS escapes `\n` and `<\/` are
interpreted). -/

def frag1 : String :=
  "\n     <!DOCTYPE html>\n\n     <html lang=\"en\" dir=\"ltr\">\n          <head>\n               <meta charset=\"UTF-8\">\n               <meta name=\"viewport\" content=\"width=device-width, initial-scale=1.0\">\n               <style>\n                    "

def frag2 : String :=
  "\n\n               </style>\n          </head>\n          <body>\n               "

def frag3 : String :=
  "\n\n               <script>\n                    try\x7b\n                         "

def frag4 : String :=
  "\n                         "

def frag5 : String :=
  "\n\n                    \x7dcatch(e) \x7b\n                         console.error(e)\n                    \x7d\n\n               </script>\n          </body>\n     </html>\n     "

/-- The inner template `` `\n/* tests */\n${tests}` `` contributes this glue
before the trimmed test code. -/
def testGlue : String :=
  "\n/* tests */\n"

/-- The recognizable test marker comment. -/
def testMarker : String :=
  "/* tests */"

/-- JS `String.prototype.trim`: drop leading and trailing whitespace.
(Structurally recursive so that concrete instances evaluate.) -/
def jsTrim (s : String) : String :=
  String.mk
    ((((s.data.dropWhile Char.isWhitespace).reverse).dropWhile
        Char.isWhitespace).reverse)

/-- `buildwebSrcdoc` (script.js).  `testArea` is the value read from the
`#testArea` element: `none` models an absent element, where the source's
`($("#testArea")?.value || '')` yields `''`.  The conditional hole
`${withTests && tests ? ... : ''}` inserts the marker and the trimmed tests
exactly when `withTests` is true and the trimmed test text is non-empty. -/
def buildwebSrcdoc (html css js : String) (testArea : Option String)
    (withTests : Bool) : String :=
  let tests := jsTrim (testArea.getD "")
  frag1 ++ css ++ frag2 ++ html ++ frag3 ++ js ++ frag4 ++
    (if withTests && !tests.isEmpty then testGlue ++ tests else "") ++ frag5

/-! ## Open-preview click handler (script.js lines 371-379)

The handler's observable effects on the host are recorded as a trace of
actions, in program order. -/

inductive PreviewAction where
  | winOpen (url : String)
  | docOpen
  | docWrite (content : String)
  | docClose
  | blobCreate (content mime : String)
  | objectURLCreate
  deriving DecidableEq

/-- The `#openPreview` click handler: `buildwebSrcdoc(false)` on the current
buffers, then `window.open("about:blank")` followed by
`document.open(); document.write(src); document.close()` on the new context. -/
def openPreviewClick (html css js : String) (testArea : Option String) :
    List PreviewAction :=
  let src := buildwebSrcdoc html css js testArea false
  [PreviewAction.winOpen "about:blank", PreviewAction.docOpen,
   PreviewAction.docWrite src, PreviewAction.docClose]

def PreviewAction.isWrite : PreviewAction → Bool
  | .docWrite _ => true
  | _ => false

def PreviewAction.isBlobCreate : PreviewAction → Bool
  | .blobCreate _ _ => true
  | _ => false

def PreviewAction.isBlobNavigation : PreviewAction → Bool
  | .winOpen url => "blob:".data.isPrefixOf url.data
  | _ => false

/-! ## JSON values and the parse boundary

`Jv` models a parsed JSON value.  `JSON.parse` itself is host functionality;
its outcome is modelled as `Except Unit Jv` (`.error` = the parse threw) and a
key-value store entry as `Option (Except Unit Jv)` (`none` = key absent; note
that on an absent key `localStorage.getItem` returns `null` and
`JSON.parse(null)` parses the string "null" to the JSON null value). -/

inductive Jv where
  | null
  | bool (b : Bool)
  | num (n : Int)
  | str (s : String)
  | arr (elems : List Jv)
  | obj (fields : List (String × Jv))

/-- JS truthiness of a JSON value (`!x` in the source is its negation). -/
def Jv.truthy : Jv → Bool
  | .null => false
  | .bool b => b
  | .num n => n != 0
  | .str s => !s.isEmpty
  | .arr _ => true
  | .obj _ => true

/-- `typeof x === "object"` for a parsed JSON value (true for null, arrays
and objects). -/
def Jv.isObjectType : Jv → Bool
  | .null => true
  | .arr _ => true
  | .obj _ => true
  | _ => false

def lookupField : List (String × Jv) → String → Option Jv
  | [], _ => none
  | (k, v) :: rest, key => if k == key then some v else lookupField rest key

/-- Property access `x.key`: `some v` when present, `none` for JS
`undefined`.  The source only accesses properties after checking
`typeof x === "object"` and truthiness, so non-object cases yield
`undefined` here (arrays have no string-named own properties of interest). -/
def Jv.get : Jv → String → Option Jv
  | .obj fields, key => lookupField fields key
  | _, _ => none

/-- Truthiness of a property access (`cache.html` used as a boolean):
an absent field is `undefined`, which is falsy. -/
def getTruthy (cache : Jv) (key : String) : Bool :=
  match cache.get key with
  | some v => v.truthy
  | none => false

/-- JS string coercion as applied by the editor when a non-string ends up in
`setValue`.  The claims only exercise string fields; the shape of the other
cases follows `String(x)` for primitives. -/
def Jv.asString : Jv → String
  | .null => "null"
  | .bool true => "true"
  | .bool false => "false"
  | .num n => toString n
  | .str s => s
  | .arr _ => ""
  | .obj _ => "[object Object]"

/-- `obj.key || ""` followed by use as a string: the field's value when
truthy, otherwise the empty string (`undefined`, i.e. an absent field, is
falsy). -/
def strFieldOr (j : Jv) (key : String) : String :=
  match j.get key with
  | some v => if v.truthy then v.asString else ""
  | none => ""

/-! ## Application state

The mutable state the persistence layer touches: the three editor buffers,
the `#assignment` and `#testArea` values, and the activity log (raw messages,
in append order). -/

structure AppState where
  ed_html : String
  ed_css : String
  ed_js : String
  assignment : String
  testArea : String
  logs : List String
  deriving DecidableEq

def logMsg (st : AppState) (msg : String) : AppState :=
  { st with logs := st.logs ++ [msg] }

/-- `loadProject(obj)` (script.js lines 409-425): populates the assignment
and test fields and the three editor buffers from `obj`, defaulting each
missing/falsy field to the empty string, then logs. -/
def loadProject (st : AppState) (obj : Jv) : AppState :=
  logMsg
    { st with
      assignment := strFieldOr obj "assignment"
      testArea := strFieldOr obj "test"
      ed_html := strFieldOr obj "html"
      ed_css := strFieldOr obj "css"
      ed_js := strFieldOr obj "js" }
    "Web project loaded."

def defaultHtml : String :=
  "<!-- Welcome card -->\n<section class=\"card\" style=\"max-width:520px;margin:24px auto;padding:18px;text-align:center\">\n  <h1>Welcome to Code Editor -by ZAHID SHAIKH</h1>\n  <p>This example runs locally in the browser.</p>\n  <button id=\"btn\">Try me</button>\n</section>"

def defaultCss : String :=
  "body\x7bfont-family:system-ui;background:#f7fafc;margin:0\x7d\nh1\x7bcolor:#0f172a\x7d\n#btn\x7bpadding:.75rem 1rem;border:0;border-radius:10px;background:#60a5fa;color:#08111f;font-weight:700\x7d"

def defaultJs : String :=
  "document.getElementById(\x27btn\x27).addEventListener(\x27click\x27,()=>alert(\x27Well done!\x27));\nconsole.log(\x27Hello from JavaScript!\x27);"

/-- `setDefaultContent()` (script.js lines 427-441): sets the three editor
buffers to the bundled default snippets. -/
def setDefaultContent (st : AppState) : AppState :=
  { st with ed_html := defaultHtml, ed_css := defaultCss, ed_js := defaultJs }

/-- The distinct "fresh start" log message. -/
def freshStartMsg : String :=
  "Loaded default project (fresh start)."

/-- The value `cache` holds after the parse phase of `initProject`: a missing
key yields JSON null (`JSON.parse(null)` parses "null"), a parse failure is
caught and leaves `cache = null`. -/
def parsedCache : Option (Except Unit Jv) → Jv
  | none => Jv.null
  | some (.error _) => Jv.null
  | some (.ok v) => v

/-- The guard of `initProject`:
`!cache || typeof cache !== "object" || !cache.html || !cache.css || !cache.js`. -/
def cacheInvalid (cache : Jv) : Bool :=
  !cache.truthy || !cache.isObjectType ||
    !getTruthy cache "html" || !getTruthy cache "css" || !getTruthy cache "js"

/-- `initProject()` (script.js lines 472-494) applied to the stored entry
under the fixed project key. -/
def initProject (st : AppState) (store : Option (Except Unit Jv)) : AppState :=
  let cache := parsedCache store
  if cacheInvalid cache then
    logMsg (setDefaultContent st) freshStartMsg
  else
    loadProject st cache

/-- The field list of the object built by `projectJSON()` (script.js lines
395-407); `now` stands for `Date.now()`. -/
def projectFields (st : AppState) (now : Int) : List (String × Jv) :=
  [("version", Jv.num 1),
   ("kind", Jv.str "web-only"),
   ("createdAt", Jv.num now),
   ("lastModified", Jv.num now),
   ("assignment", Jv.str st.assignment),
   ("test", Jv.str st.testArea),
   ("html", Jv.str st.ed_html),
   ("css", Jv.str st.ed_css),
   ("js", Jv.str st.ed_js)]

/-- `projectJSON()` as the JSON object it serializes. -/
def projectJSON (st : AppState) (now : Int) : Jv :=
  Jv.obj (projectFields st now)

/-- The `#openFile` change handler (script.js lines 459-470): the selected
file's text is parsed as JSON; on success the object is fed to
`loadProject`, on parse failure only the distinct error message is logged. -/
def openFileImport (st : AppState) (parsed : Except Unit Jv) : AppState :=
  match parsed with
  | .ok obj => loadProject st obj
  | .error _ => logMsg st "Invalid project file"

/-! ## Autorun scheduler (script.js lines 381-392)

`autoRunPreview` clears any pending timer and schedules a rebuild 600
time-units ahead: the timer slot is a single `Option` deadline.  `debounceRun`
processes edit events in time order against that slot and returns the times
at which the scheduled rebuild actually fires (a pending deadline at or
before the next event fires first). -/

def quietPeriod : Nat := 600

def debounceRun : List Nat → Option Nat → List Nat
  | [], none => []
  | [], some d => [d]
  | t :: ts, none => debounceRun ts (some (t + quietPeriod))
  | t :: ts, some d =>
      if d ≤ t then d :: debounceRun ts (some (t + quietPeriod))
      else debounceRun ts (some (t + quietPeriod))

/-! ## Pane manager (script.js lines 272-325) -/

def TAB_ORDER : List String := ["html", "css", "js"]

/-- `TAB_ORDER.indexOf(pane)`: -1 when absent, as in JS. -/
def tabIndexOf (pane : String) : Int :=
  match TAB_ORDER.indexOf? pane with
  | some i => (i : Int)
  | none => -1

inductive ArrowKey where
  | left
  | right
  deriving DecidableEq

/-- The `#webTabs` keydown handler for an arrow key: the pane shown next is
`TAB_ORDER[(idx + delta + TAB_ORDER.length) % TAB_ORDER.length]`. -/
def arrowPane (active : String) (key : ArrowKey) : String :=
  let idx := tabIndexOf active
  let delta : Int := match key with | .left => -1 | .right => 1
  let n : Int := (TAB_ORDER.length : Int)
  (TAB_ORDER.getD ((idx + delta + n) % n).toNat "")

/-! ## Font-size controls (script.js lines 239-268)

The click handlers write the bare number to the persisted entry and then
`applyFontSize` overwrites it with the pixel-suffixed string. -/

structure FontState where
  currentFontSize : Int
  storedFontSize : Option String
  deriving DecidableEq

/-- `applyFontSize()`: builds `` `${currentFontSize}px` `` and stores it via
`setEditorFontSize` (which persists the value it is given). -/
def applyFontSize (st : FontState) : FontState :=
  { st with storedFontSize := some (toString st.currentFontSize ++ "px") }

/-- The `#fontPlus` click handler. -/
def fontPlus (st : FontState) : FontState :=
  if st.currentFontSize < 26 then
    applyFontSize
      { currentFontSize := st.currentFontSize + 1,
        storedFontSize := some (toString (st.currentFontSize + 1)) }
  else st

/-- The `#fontMinus` click handler. -/
def fontMinus (st : FontState) : FontState :=
  if st.currentFontSize > 12 then
    applyFontSize
      { currentFontSize := st.currentFontSize - 1,
        storedFontSize := some (toString (st.currentFontSize - 1)) }
  else st

inductive FontClick where
  | plus
  | minus
  deriving DecidableEq

def fontStep (st : FontState) : FontClick → FontState
  | .plus => fontPlus st
  | .minus => fontMinus st

def fontRun (st : FontState) : List FontClick → FontState
  | [] => st
  | c :: cs => fontRun (fontStep st c) cs

/-! ## Sample states used by closed witness statements -/

def blankState : AppState :=
  { ed_html := "", ed_css := "", ed_js := "", assignment := "", testArea := "",
    logs := [] }

def sampleState : AppState :=
  { ed_html := "<p>x</p>", ed_css := "b \x7b color: red \x7d", ed_js := "f()",
    assignment := "notes", testArea := "check(1)", logs := [] }

/-! ## Helper lemmas -/

lemma isEmpty_false_of_ne (s : String) (h : s ≠ "") : s.isEmpty = false := by
  cases heq : s.isEmpty
  · rfl
  · exact absurd ((String.isEmpty_iff s).mp heq) h

lemma str_truthy_of_ne (s : String) (h : s ≠ "") :
    Jv.truthy (Jv.str s) = true := by
  simp [Jv.truthy, isEmpty_false_of_ne s h]

lemma strFieldOr_lookup (fields : List (String × Jv)) (key s : String)
    (h : lookupField fields key = some (Jv.str s)) :
    strFieldOr (Jv.obj fields) key = s := by
  by_cases hs : s = ""
  · subst hs
    have hfalse : Jv.truthy (Jv.str "") = false := by decide
    simp [strFieldOr, Jv.get, h, hfalse]
  · simp [strFieldOr, Jv.get, h, str_truthy_of_ne s hs, Jv.asString]

lemma getTruthy_lookup (fields : List (String × Jv)) (key s : String)
    (h : lookupField fields key = some (Jv.str s)) (hs : s ≠ "") :
    getTruthy (Jv.obj fields) key = true := by
  simp [getTruthy, Jv.get, h, str_truthy_of_ne s hs]

lemma initProject_valid (st : AppState) (fields : List (String × Jv))
    (hH : getTruthy (Jv.obj fields) "html" = true)
    (hC : getTruthy (Jv.obj fields) "css" = true)
    (hJ : getTruthy (Jv.obj fields) "js" = true) :
    initProject st (some (Except.ok (Jv.obj fields))) =
      loadProject st (Jv.obj fields) := by
  simp [initProject, parsedCache, cacheInvalid, Jv.truthy, Jv.isObjectType,
    hH, hC, hJ]

/-! ## Claim theorems -/

set_option maxRecDepth 100000

/-- C1: the `#openPreview` click handler in the source does NOT use the
object-URL pattern the claim describes: it opens `about:blank` and injects
the assembled document through `document.open()/write()/close()`.  Evaluated
at a concrete input (all buffers empty), the handler's trace is exactly the
legacy open/write/close sequence: it performs a sequential write, creates no
binary object, and never navigates to a `blob:` reference handle.  This
contradicts the claim (and the repository's own test
`Security Fix: Open Preview`, which asserts a `blob:` URL and no
`document.write`). -/
theorem c1_open_preview_trace :
    openPreviewClick "" "" "" (some "") =
      [PreviewAction.winOpen "about:blank", PreviewAction.docOpen,
       PreviewAction.docWrite (buildwebSrcdoc "" "" "" (some "") false),
       PreviewAction.docClose] ∧
    (openPreviewClick "" "" "" (some "")).any PreviewAction.isWrite = true ∧
    (openPreviewClick "" "" "" (some "")).any PreviewAction.isBlobCreate
      = false ∧
    (openPreviewClick "" "" "" (some "")).any PreviewAction.isBlobNavigation
      = false := by
  refine ⟨rfl, ?_, ?_, ?_⟩ <;> decide

/-- C2 counterexample: the claim asserts that for ALL strings, with
`includeTests = false` the output "contains neither the test code nor the
marker".  It is false at `h = c = j = ""`, `t = "try{"`: the trimmed test
code `"try{"` occurs in the assembled output anyway (in the fixed
try/catch scaffolding), even though the test branch was not taken. -/
theorem c2_counterexample :
    (jsTrim "try\x7b" ≠ "" ∧
      containsStr (buildwebSrcdoc "" "" "" (some "try\x7b") false) "try\x7b"
        = true) := by
  constructor
  · decide
  · decide

/-- C2 (amended): the assembler's treatment of the test buffer.  With
`includeTests = true` and non-empty trimmed test code, the output is exactly
the fixed template with the trimmed test code appended after `j`, preceded by
the marker comment (`testGlue = "\n" ++ testMarker ++ "\n"`).  With
`includeTests = false`, or with whitespace-only test content, the test branch
contributes nothing: the output is identical to the assembly with empty test
content, so no test-derived text surfaces (any occurrence of the test code or
marker in that output comes from `h`, `c`, `j` or the fixed template itself,
never from the test buffer). -/
theorem c2_test_code_handling (h c j t : String) :
    testGlue = "\n" ++ testMarker ++ "\n" ∧
    (jsTrim t ≠ "" →
      buildwebSrcdoc h c j (some t) true =
        frag1 ++ c ++ frag2 ++ h ++ frag3 ++ j ++ frag4 ++
          (testGlue ++ jsTrim t) ++ frag5) ∧
    buildwebSrcdoc h c j (some t) false = buildwebSrcdoc h c j (some "") false ∧
    (jsTrim t = "" →
      buildwebSrcdoc h c j (some t) true =
        buildwebSrcdoc h c j (some "") false) := by
  refine ⟨rfl, ?_, ?_, ?_⟩
  · intro ht
    simp [buildwebSrcdoc, isEmpty_false_of_ne _ ht]
  · simp [buildwebSrcdoc]
  · intro ht
    have : (jsTrim t).isEmpty = true := (String.isEmpty_iff _).mpr ht
    simp [buildwebSrcdoc, this]

/-- C2 witness: the amended theorem applied at `h = "a"`, `c = "b"`,
`j = "f()"`, `t = " check(1) "` (non-empty after trimming). -/
theorem c2_witness :
    buildwebSrcdoc "a" "b" "f()" (some " check(1) ") true =
      frag1 ++ "b" ++ frag2 ++ "a" ++ frag3 ++ "f()" ++ frag4 ++
        (testGlue ++ jsTrim " check(1) ") ++ frag5 :=
  (c2_test_code_handling "a" "b" "f()" " check(1) ").2.1 (by decide)

/-- C6 counterexample: the claim asserts that for ALL strings `h, c, j` the
assembled document (empty tests, `includeTests = false`) contains no test
marker.  It is false at `h = "/* tests */"`, `c = j = ""`: the marker occurs
in the output because it occurs in the user's HTML buffer. -/
theorem c6_counterexample :
    containsStr (buildwebSrcdoc "/* tests */" "" "" (some "") false)
      testMarker = true := by
  decide

/-- C6 (amended): for all strings `h, c, j`, the assembled document with
empty test content and `includeTests = false` is exactly the fixed template
with `c` inserted verbatim in the head's style block, `h` inserted verbatim
as the body content, and `j` inserted verbatim inside the script block's
try/catch failure boundary; the fixed fragments declare the doctype, the
charset and the viewport meta directive, and none of them contains the test
marker (so the output contains no marker apart from occurrences inside
`h`, `c`, `j` themselves). -/
theorem c6_document_shape (h c j : String) :
    buildwebSrcdoc h c j (some "") false =
      frag1 ++ c ++ frag2 ++ h ++ frag3 ++ j ++ frag4 ++ frag5 ∧
    (containsStr frag1 "<!DOCTYPE html>" = true ∧
     containsStr frag1 "<meta charset=\"UTF-8\">" = true ∧
     containsStr frag1
       "<meta name=\"viewport\" content=\"width=device-width, initial-scale=1.0\">"
       = true ∧
     containsStr frag1 "<head>" = true ∧
     containsStr frag1 "<style>" = true ∧
     containsStr frag2 "</style>" = true ∧
     containsStr frag2 "</head>" = true ∧
     containsStr frag2 "<body>" = true ∧
     containsStr frag3 "<script>" = true ∧
     containsStr frag3 "try\x7b" = true ∧
     containsStr frag5 "\x7dcatch(e)" = true ∧
     containsStr frag5 "console.error(e)" = true ∧
     containsStr frag5 "</script>" = true ∧
     containsStr frag5 "</body>" = true ∧
     containsStr frag1 testMarker = false ∧
     containsStr frag2 testMarker = false ∧
     containsStr frag3 testMarker = false ∧
     containsStr frag4 testMarker = false ∧
     containsStr frag5 testMarker = false) := by
  constructor
  · simp [buildwebSrcdoc, String.append_empty]
  · decide

/-- C7: the file-import change handler, on a file whose text fails to parse
as JSON, only logs the distinct "Invalid project file" message: the three
editor buffers and the assignment/test fields are left unchanged, and no
fallback to defaults happens — in contrast to the store-load path
(`initProject`), which on a parse failure does fall back to the bundled
defaults with the "fresh start" log. -/
theorem c7_import_parse_failure (st : AppState) :
    openFileImport st (Except.error ()) = logMsg st "Invalid project file" ∧
    (openFileImport st (Except.error ())).ed_html = st.ed_html ∧
    (openFileImport st (Except.error ())).ed_css = st.ed_css ∧
    (openFileImport st (Except.error ())).ed_js = st.ed_js ∧
    (openFileImport st (Except.error ())).assignment = st.assignment ∧
    (openFileImport st (Except.error ())).testArea = st.testArea ∧
    (openFileImport st (Except.error ())).logs
      = st.logs ++ ["Invalid project file"] ∧
    initProject st (some (Except.error ())) =
      logMsg (setDefaultContent st) freshStartMsg := by
  exact ⟨rfl, rfl, rfl, rfl, rfl, rfl, rfl, rfl⟩

/-- C8: arrow keys on the tab strip cycle the active pane through
`["html", "css", "js"]` with wraparound in both directions; in particular
left from `css` gives `html`, and left again (from `html`) gives `js`. -/
theorem c8_tab_cycling :
    arrowPane "css" ArrowKey.left = "html" ∧
    arrowPane "html" ArrowKey.left = "js" ∧
    arrowPane "js" ArrowKey.left = "css" ∧
    arrowPane "html" ArrowKey.right = "css" ∧
    arrowPane "css" ArrowKey.right = "js" ∧
    arrowPane "js" ArrowKey.right = "html" := by
  decide

/-- C9: the document assembler is pure and total.  Totality is witnessed by
the embedding itself (`buildwebSrcdoc` is a total Lean function of its
inputs, so no input makes it throw); an absent `#testArea` element
(`none`, where the source's `?.value || ''` yields `''`) is treated exactly
as the empty string; and two calls with identical input buffers and flag
yield character-for-character identical output (the function reads no state
beyond its arguments). -/
theorem c9_assembler_pure (h c j t : String) (w : Bool) :
    buildwebSrcdoc h c j none w = buildwebSrcdoc h c j (some "") w ∧
    buildwebSrcdoc h c j (some t) w = buildwebSrcdoc h c j (some t) w := by
  exact ⟨rfl, rfl⟩

/-- C3: `initProject` over any stored value that is missing, fails to parse,
or parses to an object lacking any of the non-empty fields html/css/js, does
not throw (the model is a total function), sets all three editor buffers to
the bundled default content and logs the distinct "fresh start" message;
over a stored object whose html/css/js fields are all non-empty strings it
populates the buffers from the stored fields and logs "Web project loaded."
instead. -/
theorem c3_init_project (st : AppState) (store : Option (Except Unit Jv)) :
    ((store = none ∨ store = some (Except.error ()) ∨
        (∃ fields, store = some (Except.ok (Jv.obj fields)) ∧
          (getTruthy (Jv.obj fields) "html" = false ∨
           getTruthy (Jv.obj fields) "css" = false ∨
           getTruthy (Jv.obj fields) "js" = false))) →
      initProject st store = logMsg (setDefaultContent st) freshStartMsg ∧
      (initProject st store).ed_html = defaultHtml ∧
      (initProject st store).ed_css = defaultCss ∧
      (initProject st store).ed_js = defaultJs ∧
      (initProject st store).logs = st.logs ++ [freshStartMsg]) ∧
    (∀ fields hv cv jv, store = some (Except.ok (Jv.obj fields)) →
      lookupField fields "html" = some (Jv.str hv) → hv ≠ "" →
      lookupField fields "css" = some (Jv.str cv) → cv ≠ "" →
      lookupField fields "js" = some (Jv.str jv) → jv ≠ "" →
      (initProject st store).ed_html = hv ∧
      (initProject st store).ed_css = cv ∧
      (initProject st store).ed_js = jv ∧
      (initProject st store).logs = st.logs ++ ["Web project loaded."]) := by
  constructor
  · rintro (rfl | rfl | ⟨fields, rfl, hbad⟩)
    · exact ⟨rfl, rfl, rfl, rfl, rfl⟩
    · exact ⟨rfl, rfl, rfl, rfl, rfl⟩
    · have hinv : cacheInvalid (Jv.obj fields) = true := by
        rcases hbad with h1 | h1 | h1 <;> simp [cacheInvalid, h1]
      have e : initProject st (some (Except.ok (Jv.obj fields))) =
          logMsg (setDefaultContent st) freshStartMsg := by
        simp [initProject, parsedCache, hinv]
      refine ⟨e, ?_, ?_, ?_, ?_⟩ <;> rw [e]
      · rfl
      · rfl
      · rfl
      · rfl
  · rintro fields hv cv jv rfl hH hHne hC hCne hJ hJne
    have e := initProject_valid st fields
      (getTruthy_lookup fields "html" hv hH hHne)
      (getTruthy_lookup fields "css" cv hC hCne)
      (getTruthy_lookup fields "js" jv hJ hJne)
    refine ⟨?_, ?_, ?_, ?_⟩ <;> rw [e]
    · exact strFieldOr_lookup fields "html" hv hH
    · exact strFieldOr_lookup fields "css" cv hC
    · exact strFieldOr_lookup fields "js" jv hJ
    · rfl

/-- C3 witness: `initProject` over a store whose content fails to parse
falls back to the defaults and the "fresh start" log. -/
theorem c3_witness :
    initProject sampleState (some (Except.error ())) =
      logMsg (setDefaultContent sampleState) freshStartMsg :=
  ((c3_init_project sampleState (some (Except.error ()))).1
    (Or.inr (Or.inl rfl))).1

/-- C4: saving a well-formed project (all three buffers non-empty) via
`projectJSON` under the fixed store key and then loading with `initProject`
reconstructs a model whose html, css, js, assignment and test field values
equal those of the saved project, whatever state the loader starts from. -/
theorem c4_roundtrip (st st0 : AppState) (now : Int)
    (hh : st.ed_html ≠ "") (hc : st.ed_css ≠ "") (hj : st.ed_js ≠ "") :
    (initProject st0 (some (Except.ok (projectJSON st now)))).ed_html
      = st.ed_html ∧
    (initProject st0 (some (Except.ok (projectJSON st now)))).ed_css
      = st.ed_css ∧
    (initProject st0 (some (Except.ok (projectJSON st now)))).ed_js
      = st.ed_js ∧
    (initProject st0 (some (Except.ok (projectJSON st now)))).assignment
      = st.assignment ∧
    (initProject st0 (some (Except.ok (projectJSON st now)))).testArea
      = st.testArea := by
  have hlookH : lookupField (projectFields st now) "html"
      = some (Jv.str st.ed_html) := rfl
  have hlookC : lookupField (projectFields st now) "css"
      = some (Jv.str st.ed_css) := rfl
  have hlookJ : lookupField (projectFields st now) "js"
      = some (Jv.str st.ed_js) := rfl
  have hlookA : lookupField (projectFields st now) "assignment"
      = some (Jv.str st.assignment) := rfl
  have hlookT : lookupField (projectFields st now) "test"
      = some (Jv.str st.testArea) := rfl
  have e : initProject st0 (some (Except.ok (Jv.obj (projectFields st now)))) =
      loadProject st0 (Jv.obj (projectFields st now)) :=
    initProject_valid st0 (projectFields st now)
      (getTruthy_lookup (projectFields st now) "html" st.ed_html hlookH hh)
      (getTruthy_lookup (projectFields st now) "css" st.ed_css hlookC hc)
      (getTruthy_lookup (projectFields st now) "js" st.ed_js hlookJ hj)
  simp only [projectJSON]
  refine ⟨?_, ?_, ?_, ?_, ?_⟩ <;> rw [e]
  · exact strFieldOr_lookup (projectFields st now) "html" st.ed_html hlookH
  · exact strFieldOr_lookup (projectFields st now) "css" st.ed_css hlookC
  · exact strFieldOr_lookup (projectFields st now) "js" st.ed_js hlookJ
  · exact strFieldOr_lookup (projectFields st now) "assignment" st.assignment
      hlookA
  · exact strFieldOr_lookup (projectFields st now) "test" st.testArea hlookT

/-- C4 witness: the round trip at a concrete well-formed project. -/
theorem c4_witness :
    (initProject blankState (some (Except.ok (projectJSON sampleState 0)))).ed_html
      = sampleState.ed_html ∧
    (initProject blankState (some (Except.ok (projectJSON sampleState 0)))).ed_css
      = sampleState.ed_css ∧
    (initProject blankState (some (Except.ok (projectJSON sampleState 0)))).ed_js
      = sampleState.ed_js ∧
    (initProject blankState (some (Except.ok (projectJSON sampleState 0)))).assignment
      = sampleState.assignment ∧
    (initProject blankState (some (Except.ok (projectJSON sampleState 0)))).testArea
      = sampleState.testArea :=
  c4_roundtrip sampleState blankState 0 (by decide) (by decide) (by decide)

lemma debounce_aux (t : Nat) (ts : List Nat)
    (h : List.Chain' (fun a b => a ≤ b ∧ b < a + quietPeriod) (t :: ts)) :
    debounceRun ts (some (t + quietPeriod)) = [ts.getLastD t + quietPeriod] := by
  induction ts generalizing t with
  | nil => rfl
  | cons u us ih =>
      rcases List.chain'_cons.mp h with ⟨⟨hle, hlt⟩, htail⟩
      have hnot : ¬ (t + quietPeriod ≤ u) := by omega
      simp only [debounceRun, if_neg hnot, List.getLastD_cons]
      exact ih u htail

/-- C5: for every non-empty sequence of edit events, in time order, in which
consecutive events are separated by less than the 600-unit quiet period,
exactly one rebuild fires, and it fires 600 units after the last event: each
new edit cancels the single outstanding timer (the timer slot is one
`Option`, so at most one rebuild is ever pending) and restarts it. -/
theorem c5_debounce (ts : List Nat) (hne : ts ≠ [])
    (hchain : List.Chain' (fun a b => a ≤ b ∧ b < a + quietPeriod) ts) :
    debounceRun ts none = [ts.getLastD 0 + quietPeriod] := by
  cases ts with
  | nil => exact absurd rfl hne
  | cons t rest =>
      simp only [debounceRun, List.getLastD_cons]
      exact debounce_aux t rest hchain

/-- C5 witness: three edits at times 0, 100, 650 (each gap below 600)
produce exactly one rebuild, at time 650 + 600 = 1250. -/
theorem c5_witness : debounceRun [0, 100, 650] none = [1250] :=
  (c5_debounce [0, 100, 650] (by decide)
    (by simp [List.chain'_cons, quietPeriod])).trans (by decide)

lemma fontStep_bounds (st : FontState) (c : FontClick)
    (h1 : 12 ≤ st.currentFontSize) (h2 : st.currentFontSize ≤ 26) :
    12 ≤ (fontStep st c).currentFontSize ∧
      (fontStep st c).currentFontSize ≤ 26 := by
  cases c
  · by_cases hlt : st.currentFontSize < 26 <;>
      simp [fontStep, fontPlus, applyFontSize, hlt] <;> omega
  · by_cases hgt : st.currentFontSize > 12 <;>
      simp [fontStep, fontMinus, applyFontSize, hgt] <;> omega

lemma fontRun_bounds (clicks : List FontClick) (st : FontState)
    (h1 : 12 ≤ st.currentFontSize) (h2 : st.currentFontSize ≤ 26) :
    12 ≤ (fontRun st clicks).currentFontSize ∧
      (fontRun st clicks).currentFontSize ≤ 26 := by
  induction clicks generalizing st with
  | nil => exact ⟨h1, h2⟩
  | cons c cs ih =>
      have hb := fontStep_bounds st c h1 h2
      simpa [fontRun] using ih (fontStep st c) hb.1 hb.2

/-- C10: starting from any font size in [12, 26], an increase click is a
no-op at 26 and otherwise adds exactly 1, a decrease click is a no-op at 12
and otherwise subtracts exactly 1, the persisted font-size entry is updated
on every effective change, and every sequence of clicks keeps the size
within [12, 26]. -/
theorem c10_font_controls (st : FontState)
    (h1 : 12 ≤ st.currentFontSize) (h2 : st.currentFontSize ≤ 26) :
    (st.currentFontSize = 26 → fontPlus st = st) ∧
    (st.currentFontSize < 26 →
      (fontPlus st).currentFontSize = st.currentFontSize + 1 ∧
      (fontPlus st).storedFontSize
        = some (toString (st.currentFontSize + 1) ++ "px")) ∧
    (st.currentFontSize = 12 → fontMinus st = st) ∧
    (12 < st.currentFontSize →
      (fontMinus st).currentFontSize = st.currentFontSize - 1 ∧
      (fontMinus st).storedFontSize
        = some (toString (st.currentFontSize - 1) ++ "px")) ∧
    ∀ clicks : List FontClick,
      12 ≤ (fontRun st clicks).currentFontSize ∧
        (fontRun st clicks).currentFontSize ≤ 26 := by
  refine ⟨?_, ?_, ?_, ?_, fun clicks => fontRun_bounds clicks st h1 h2⟩
  · intro he
    simp [fontPlus, he]
  · intro hlt
    constructor <;> simp [fontPlus, applyFontSize, hlt]
  · intro he
    simp [fontMinus, he]
  · intro hgt
    constructor <;> simp [fontMinus, applyFontSize, hgt]

/-- C10 witness: one increase click from size 17 yields size 18 and updates
the persisted entry. -/
theorem c10_witness :
    (fontPlus { currentFontSize := 17, storedFontSize := none }).currentFontSize
      = 17 + 1 ∧
    (fontPlus { currentFontSize := 17, storedFontSize := none }).storedFontSize
      = some (toString (17 + 1 : Int) ++ "px") :=
  (c10_font_controls { currentFontSize := 17, storedFontSize := none }
    (by decide) (by decide)).2.1 (by decide)
